import Mathlib

/-!
Verification of the single-script repository `apis/generate_code_api测试.py`.

The script builds a JSON payload with Python's `json.dumps` (default
settings, in particular `ensure_ascii=True` and separators `", "` / `": "`),
opens an HTTP connection to `127.0.0.1:8000`, issues one `POST /generate`
request with two caller-set headers and the payload as body (a `str` body is
encoded to bytes with latin-1 by Python's `http.client`), reads the full
response body, decodes it strictly as UTF-8, and prints it (with a trailing
newline). No status check, no retry, no error handling.

Bytes are modelled as `Nat` (each `< 256` where produced), strings as Lean
`String`, and one run of the script as a function of the transport outcome.
-/

namespace GenerateCodeApiTest

/-- Lowercase hexadecimal digit character for a value `n < 16`,
as produced by Python's `'%04x'` formatting inside `json.dumps`. -/
def hexDigitChar (n : Nat) : Char :=
  if n < 10 then Char.ofNat (48 + n) else Char.ofNat (87 + n)

/-- Four lowercase hexadecimal digits of `n < 0x10000`, as in Python's
`'\\u%04x'` escapes emitted by `json.dumps(..., ensure_ascii=True)`. -/
def pyHex4 (n : Nat) : String :=
  String.mk [hexDigitChar (n / 4096 % 16), hexDigitChar (n / 256 % 16),
             hexDigitChar (n / 16 % 16), hexDigitChar (n % 16)]

/-- Escape of one character in a JSON string, exactly as Python's
`json.dumps` with the default `ensure_ascii=True` does it: `"` and `\\` get
backslash escapes, the five control shorthands are used, printable ASCII
(0x20–0x7E) passes through, and every other character becomes `\\uXXXX`
(a surrogate pair for characters above 0xFFFF). -/
def pyEscapeAsciiChar (c : Char) : String :=
  if c = Char.ofNat 34 then String.mk [Char.ofNat 92, Char.ofNat 34]
  else if c = Char.ofNat 92 then String.mk [Char.ofNat 92, Char.ofNat 92]
  else if c.toNat = 8 then "\\b"
  else if c.toNat = 12 then "\\f"
  else if c.toNat = 10 then "\\n"
  else if c.toNat = 13 then "\\r"
  else if c.toNat = 9 then "\\t"
  else if 0x20 ≤ c.toNat && c.toNat ≤ 0x7E then String.singleton c
  else if c.toNat < 0x10000 then "\\u" ++ pyHex4 c.toNat
  else
    let n := c.toNat - 0x10000
    "\\u" ++ pyHex4 (0xD800 + n / 0x400) ++ "\\u" ++ pyHex4 (0xDC00 + n % 0x400)

/-- Python `json.dumps` of a string value: quote, escaped characters, quote. -/
def pyDumpString (s : String) : String :=
  "\"" ++ String.join (s.data.map pyEscapeAsciiChar) ++ "\""

/-- Python `json.dumps` of a dict whose values are strings, with the default
separators `", "` (items) and `": "` (key/value) and insertion order of keys
(Python dicts preserve insertion order; `sort_keys` defaults to `False`). -/
def pyDumpStrObj (kvs : List (String × String)) : String :=
  "\x7b" ++ String.intercalate ", "
      (kvs.map fun kv => pyDumpString kv.1 ++ ": " ++ pyDumpString kv.2) ++ "\x7d"

/-- Line 5–8 of the script:
`payload = json.dumps({"question": "生成一个贪吃蛇项目", "language": "python"})`. -/
def payload : String :=
  pyDumpStrObj [("question", "生成一个贪吃蛇项目"), ("language", "python")]

/-- Lines 9–12 of the script: the caller-set header dict, in insertion order. -/
def headers : List (String × String) :=
  [("User-Agent", "Apifox/1.0.0 (https://apifox.com)"),
   ("Content-Type", "application/json")]

/-- Latin-1 (ISO-8859-1) encoding of a string to bytes, as Python's
`http.client` applies to a `str` request body; `none` models the
`UnicodeEncodeError` raised for a character above U+00FF. -/
def latin1Encode (s : String) : Option (List Nat) :=
  if s.data.all (fun c => c.toNat < 0x100) then some (s.data.map Char.toNat)
  else none

/-- UTF-8 encoding of a single character (1–4 bytes). -/
def utf8EncodeChar (c : Char) : List Nat :=
  let n := c.toNat
  if n < 0x80 then [n]
  else if n < 0x800 then [0xC0 + n / 0x40, 0x80 + n % 0x40]
  else if n < 0x10000 then
    [0xE0 + n / 0x1000, 0x80 + n / 0x40 % 0x40, 0x80 + n % 0x40]
  else
    [0xF0 + n / 0x40000, 0x80 + n / 0x1000 % 0x40,
     0x80 + n / 0x40 % 0x40, 0x80 + n % 0x40]

/-- UTF-8 encoding of a string to bytes. -/
def utf8Encode (s : String) : List Nat :=
  s.data.foldr (fun c acc => utf8EncodeChar c ++ acc) []

/-- Continuation-byte test for UTF-8 decoding. -/
def isCont (b : Nat) : Bool := 0x80 ≤ b && b ≤ 0xBF

/-- Strict UTF-8 decoding of one character from the front of a byte list,
rejecting overlong forms, surrogates and values above U+10FFFF, exactly the
sequences Python's strict `bytes.decode("utf-8")` rejects. -/
def utf8DecodeOne : List Nat → Option (Char × List Nat)
  | [] => none
  | b :: rest =>
    if b ≤ 0x7F then some (Char.ofNat b, rest)
    else if 0xC2 ≤ b && b ≤ 0xDF then
      match rest with
      | b2 :: r =>
        if isCont b2 then some (Char.ofNat ((b - 0xC0) * 0x40 + (b2 - 0x80)), r)
        else none
      | [] => none
    else if 0xE0 ≤ b && b ≤ 0xEF then
      match rest with
      | b2 :: b3 :: r =>
        let lo2 := if b = 0xE0 then 0xA0 else 0x80
        let hi2 := if b = 0xED then 0x9F else 0xBF
        if lo2 ≤ b2 && b2 ≤ hi2 && isCont b3 then
          some (Char.ofNat ((b - 0xE0) * 0x1000 + (b2 - 0x80) * 0x40 + (b3 - 0x80)), r)
        else none
      | _ => none
    else if 0xF0 ≤ b && b ≤ 0xF4 then
      match rest with
      | b2 :: b3 :: b4 :: r =>
        let lo2 := if b = 0xF0 then 0x90 else 0x80
        let hi2 := if b = 0xF4 then 0x8F else 0xBF
        if lo2 ≤ b2 && b2 ≤ hi2 && isCont b3 && isCont b4 then
          some (Char.ofNat ((b - 0xF0) * 0x40000 + (b2 - 0x80) * 0x1000 +
                            (b3 - 0x80) * 0x40 + (b4 - 0x80)), r)
        else none
      | _ => none
    else none

/-- Fuelled strict UTF-8 decoding loop; each step consumes at least one byte,
so fuel equal to the input length always suffices. -/
def utf8DecodeLoop : Nat → List Nat → Option (List Char)
  | _, [] => some []
  | 0, _ :: _ => none
  | fuel + 1, l => do
    let (c, rest) ← utf8DecodeOne l
    let cs ← utf8DecodeLoop fuel rest
    some (c :: cs)

/-- Strict UTF-8 decoding of a byte list, as `data.decode("utf-8")` on line
16 of the script; `none` models the `UnicodeDecodeError`. -/
def utf8Decode (bs : List Nat) : Option String :=
  (utf8DecodeLoop bs.length bs).map String.mk

/-- The HTTP request the script puts together; `headers` are the caller-set
headers passed to `conn.request` (the library's automatic `Host`,
`Accept-Encoding` and `Content-Length` headers are not caller-set),
`body` the bytes sent on the wire. -/
structure HttpRequest where
  host : String
  port : Nat
  method : String
  path : String
  headers : List (String × String)
  body : List Nat
  deriving DecidableEq

/-- Possible behaviours of the transport and server during one run:
the connection is refused, it times out, the server closes the connection
before a complete response, or a complete response with a status code and a
body arrives. -/
inductive Transport where
  | refused
  | timedOut
  | closedEarly
  | ok (status : Nat) (body : List Nat)

/-- The unhandled Python exceptions that can terminate the script. -/
inductive ScriptFault where
  | connectionError
  | timeoutError
  | remoteDisconnected
  | unicodeEncodeError
  | unicodeDecodeError
  deriving DecidableEq

/-- How a run of the script ends: normal exit, or termination by an
unhandled exception. -/
inductive Outcome where
  | normalExit
  | fault (e : ScriptFault)
  deriving DecidableEq

/-- The observable effects of one run: the requests the script attempts to
send (in order), everything it writes to standard output, and how it ends. -/
structure RunResult where
  requests : List HttpRequest
  stdout : String
  outcome : Outcome
  deriving DecidableEq

/-- The request the script sends: `conn.request("POST", "/generate",
payload, headers)` on the connection to `("127.0.0.1", 8000)`, with the
`str` payload encoded to latin-1 bytes by `http.client`. -/
def scriptRequest : HttpRequest :=
  { host := "127.0.0.1", port := 8000, method := "POST", path := "/generate",
    headers := headers, body := payload.data.map Char.toNat }

/-- One run of the script as a function of the transport outcome. The
payload is first encoded to bytes (an encoding failure would abort before
any request); the single request is then attempted exactly once; on a
complete response the body is read, strictly UTF-8 decoded, and printed
with the trailing newline `print` appends; a transport failure or a
decoding failure is an unhandled exception: nothing is printed and the
process terminates with the fault. The HTTP status code is never
inspected. -/
def scriptRun (t : Transport) : RunResult :=
  match latin1Encode payload with
  | none => ⟨[], "", Outcome.fault ScriptFault.unicodeEncodeError⟩
  | some bodyBytes =>
    let req : HttpRequest :=
      { host := "127.0.0.1", port := 8000, method := "POST",
        path := "/generate", headers := headers, body := bodyBytes }
    match t with
    | Transport.refused => ⟨[req], "", Outcome.fault ScriptFault.connectionError⟩
    | Transport.timedOut => ⟨[req], "", Outcome.fault ScriptFault.timeoutError⟩
    | Transport.closedEarly =>
        ⟨[req], "", Outcome.fault ScriptFault.remoteDisconnected⟩
    | Transport.ok _ body =>
      match utf8Decode body with
      | none => ⟨[req], "", Outcome.fault ScriptFault.unicodeDecodeError⟩
      | some text => ⟨[req], text ++ "\n", Outcome.normalExit⟩

/-- The payload is pure latin-1 (indeed pure ASCII), so its byte encoding
succeeds and the wire body is its character codes. -/
theorem latin1_payload : latin1Encode payload = some (payload.data.map Char.toNat) := by
  decide

/-- Value of one hexadecimal digit character, upper or lower case. -/
def hexVal (c : Char) : Option Nat :=
  let n := c.toNat
  if 48 ≤ n && n ≤ 57 then some (n - 48)
  else if 97 ≤ n && n ≤ 102 then some (n - 87)
  else if 65 ≤ n && n ≤ 70 then some (n - 55)
  else none

/-- Value of four hexadecimal digit characters. -/
def hex4Val (a b c d : Char) : Option Nat := do
  let x ← hexVal a
  let y ← hexVal b
  let z ← hexVal c
  let w ← hexVal d
  some (((x * 16 + y) * 16 + z) * 16 + w)

/-- JSON short escape characters after a backslash. -/
def escChar (c : Char) : Option Char :=
  if c = Char.ofNat 34 then some (Char.ofNat 34)
  else if c = Char.ofNat 92 then some (Char.ofNat 92)
  else if c = Char.ofNat 47 then some (Char.ofNat 47)
  else if c = Char.ofNat 98 then some (Char.ofNat 8)
  else if c = Char.ofNat 102 then some (Char.ofNat 12)
  else if c = Char.ofNat 110 then some (Char.ofNat 10)
  else if c = Char.ofNat 114 then some (Char.ofNat 13)
  else if c = Char.ofNat 116 then some (Char.ofNat 9)
  else none

/-- Standard-JSON parsing of the remainder of a string literal, after the
opening quote: returns the decoded characters and the rest of the input.
Short escapes and `\\uXXXX` escapes (combining surrogate pairs) are decoded,
raw control characters are rejected (strict mode). Lone surrogate escapes
are rejected as well — they denote no Unicode scalar value. Fuelled; fuel
at least the input length always suffices. -/
def parseStringRest : Nat → List Char → Option (List Char × List Char)
  | 0, _ => none
  | _ + 1, [] => none
  | fuel + 1, c :: rest =>
    if c = Char.ofNat 34 then some ([], rest)
    else if c = Char.ofNat 92 then
      match rest with
      | [] => none
      | e :: rest1 =>
        if e = Char.ofNat 117 then
          match rest1 with
          | a :: b :: c2 :: d :: rest2 => do
            let n ← hex4Val a b c2 d
            if 0xD800 ≤ n && n ≤ 0xDBFF then
              match rest2 with
              | s1 :: s2 :: a2 :: b2 :: c3 :: d2 :: rest3 =>
                if s1 = Char.ofNat 92 && s2 = Char.ofNat 117 then do
                  let m ← hex4Val a2 b2 c3 d2
                  if 0xDC00 ≤ m && m ≤ 0xDFFF then do
                    let cp := 0x10000 + (n - 0xD800) * 0x400 + (m - 0xDC00)
                    let (cs, r) ← parseStringRest fuel rest3
                    some (Char.ofNat cp :: cs, r)
                  else none
                else none
              | _ => none
            else if 0xDC00 ≤ n && n ≤ 0xDFFF then none
            else do
              let (cs, r) ← parseStringRest fuel rest2
              some (Char.ofNat n :: cs, r)
          | _ => none
        else do
          let ec ← escChar e
          let (cs, r) ← parseStringRest fuel rest1
          some (ec :: cs, r)
    else if c.toNat < 0x20 then none
    else do
      let (cs, r) ← parseStringRest fuel rest
      some (c :: cs, r)

/-- Drop JSON whitespace (space, tab, line feed, carriage return). -/
def skipWs : List Char → List Char
  | [] => []
  | c :: rest =>
    if c.toNat = 32 || c.toNat = 9 || c.toNat = 10 || c.toNat = 13 then skipWs rest
    else c :: rest

/-- Standard-JSON parsing of the members of a non-empty object whose values
are string literals (the shape of this script's payload), after the opening
brace: returns the key/value pairs in textual order and the rest of the
input after the closing brace. -/
def parseMembers : Nat → List Char → Option (List (String × String) × List Char)
  | 0, _ => none
  | fuel + 1, l =>
    match skipWs l with
    | q :: rest =>
      if q = Char.ofNat 34 then do
        let (k, r1) ← parseStringRest (fuel + 1) rest
        match skipWs r1 with
        | colon :: r2 =>
          if colon = Char.ofNat 58 then
            match skipWs r2 with
            | q2 :: r3 =>
              if q2 = Char.ofNat 34 then do
                let (v, r4) ← parseStringRest (fuel + 1) r3
                match skipWs r4 with
                | sep :: r5 =>
                  if sep = Char.ofNat 44 then do
                    let (kvs, r6) ← parseMembers fuel r5
                    some ((String.mk k, String.mk v) :: kvs, r6)
                  else if sep = Char.ofNat 125 then
                    some ([(String.mk k, String.mk v)], r5)
                  else none
                | [] => none
              else none
            | [] => none
          else none
        | [] => none
      else none
    | [] => none

/-- Standard-JSON parsing of a whole text as one object whose values are
string literals: the shape the payload of this script parses to. `none` on
any other input. -/
def parseStrObject (s : String) : Option (List (String × String)) :=
  match skipWs s.data with
  | brace :: rest =>
    if brace = Char.ofNat 123 then
      match skipWs rest with
      | brace2 :: r2 =>
        if brace2 = Char.ofNat 125 then
          if (skipWs r2).isEmpty then some [] else none
        else do
          let (kvs, r) ← parseMembers (s.length + 1) rest
          if (skipWs r).isEmpty then some kvs else none
      | [] => none
    else none
  | [] => none

/-- Whatever the transport does, the script attempts exactly the single
fixed request `scriptRequest`. -/
theorem scriptRun_requests_eq (t : Transport) :
    (scriptRun t).requests = [scriptRequest] := by
  cases t with
  | refused => rfl
  | timedOut => rfl
  | closedEarly => rfl
  | ok status body =>
    simp only [scriptRun, latin1_payload]
    cases hu : utf8Decode body <;> rfl

set_option maxRecDepth 8192 in
/-- Claim C1: the request body the script sends, parsed as JSON, is exactly
the object mapping "question" to "生成一个贪吃蛇项目" and "language" to
"python", with no other fields. -/
theorem body_parses_to_exact_object :
    (utf8Decode scriptRequest.body).bind parseStrObject =
      some [("question", "生成一个贪吃蛇项目"), ("language", "python")] := by
  decide

/-- Claim C2, counterexample: the wire body is NOT the UTF-8 encoding of the
literal JSON text with the raw Chinese characters — `json.dumps` escapes
them, so the bytes differ. -/
theorem body_not_raw_utf8_of_chinese :
    scriptRequest.body ≠
      utf8Encode "\x7b\"question\": \"生成一个贪吃蛇项目\", \"language\": \"python\"\x7d" := by
  decide

/-- Claim C2, amended: the wire body is, byte for byte, the UTF-8 (indeed
ASCII) encoding of the JSON text in which each Chinese character appears as
its `\\uXXXX` escape sequence. -/
theorem body_is_escaped_ascii_json :
    scriptRequest.body =
      utf8Encode "\x7b\"question\": \"\\u751f\\u6210\\u4e00\\u4e2a\\u8d2a\\u5403\\u86c7\\u9879\\u76ee\", \"language\": \"python\"\x7d" := by
  decide

/-- Claim C3: for every response body that is valid UTF-8, the script's
entire standard output is that body decoded as UTF-8 followed by exactly
one newline, whatever the status code. -/
theorem response_passthrough (status : Nat) (body : List Nat) (text : String)
    (h : utf8Decode body = some text) :
    (scriptRun (Transport.ok status body)).stdout = text ++ "\n" := by
  simp only [scriptRun, latin1_payload, h]

/-- Claim C3, witness: with status 200 and body `UTF-8("\x7b"status":"ok"\x7d")`,
the printed output is that text plus one newline. -/
theorem response_passthrough_witness :
    utf8Decode (utf8Encode "\x7b\"status\":\"ok\"\x7d") = some "\x7b\"status\":\"ok\"\x7d" ∧
    (scriptRun (Transport.ok 200 (utf8Encode "\x7b\"status\":\"ok\"\x7d"))).stdout
      = "\x7b\"status\":\"ok\"\x7d" ++ "\n" :=
  ⟨by decide, response_passthrough 200 _ _ (by decide)⟩

/-- Claim C4, counterexample: on a response with the non-200 status 500 and
a valid UTF-8 body, the run does NOT end in an unhandled error — it prints
the body and exits normally, because the script never inspects the status. -/
theorem non200_prints_and_exits_normally :
    (500 : Nat) ≠ 200 ∧
    (scriptRun (Transport.ok 500 (utf8Encode "\x7b\"detail\":\"error\"\x7d"))).outcome
      = Outcome.normalExit ∧
    (scriptRun (Transport.ok 500 (utf8Encode "\x7b\"detail\":\"error\"\x7d"))).stdout
      = "\x7b\"detail\":\"error\"\x7d" ++ "\n" := by
  decide

/-- Claim C4, amended: the script ignores the HTTP status code entirely —
a run on a complete response with a non-200 status is indistinguishable
from the run on the same body with status 200 (same request, same output,
same exit). -/
theorem status_ignored (s₁ s₂ : Nat) (body : List Nat) :
    scriptRun (Transport.ok s₁ body) = scriptRun (Transport.ok s₂ body) := by
  simp only [scriptRun, latin1_payload]

/-- Claim C5: any two runs of the script attempt identical request lists —
same host, port, method, path, headers and body — whatever the transports
do; the request depends on no run-dependent data. -/
theorem request_deterministic (t₁ t₂ : Transport) :
    (scriptRun t₁).requests = (scriptRun t₂).requests := by
  rw [scriptRun_requests_eq, scriptRun_requests_eq]

/-- Claim C6: every run issues exactly one request, a POST to /generate on
host 127.0.0.1, port 8000. -/
theorem single_post_generate_request (t : Transport) :
    (scriptRun t).requests = [scriptRequest] ∧
    scriptRequest.method = "POST" ∧ scriptRequest.path = "/generate" ∧
    scriptRequest.host = "127.0.0.1" ∧ scriptRequest.port = 8000 :=
  ⟨scriptRun_requests_eq t, rfl, rfl, rfl, rfl⟩

/-- Claim C7: the request carries exactly two caller-set headers,
Content-Type: application/json and User-Agent: Apifox/1.0.0
(https://apifox.com). -/
theorem headers_exactly_two :
    scriptRequest.headers =
      [("User-Agent", "Apifox/1.0.0 (https://apifox.com)"),
       ("Content-Type", "application/json")] := rfl

/-- Claim C8: on each transport failure — connection refused, timeout, or
the server closing the connection before a complete response — the run ends
in the corresponding unhandled fault, prints nothing, and attempts exactly
one request (no retry); the run function is total, so no run hangs. -/
theorem transport_failure_fault :
    ((scriptRun Transport.refused).outcome = Outcome.fault ScriptFault.connectionError ∧
     (scriptRun Transport.refused).stdout = "" ∧
     (scriptRun Transport.refused).requests.length = 1) ∧
    ((scriptRun Transport.timedOut).outcome = Outcome.fault ScriptFault.timeoutError ∧
     (scriptRun Transport.timedOut).stdout = "" ∧
     (scriptRun Transport.timedOut).requests.length = 1) ∧
    ((scriptRun Transport.closedEarly).outcome = Outcome.fault ScriptFault.remoteDisconnected ∧
     (scriptRun Transport.closedEarly).stdout = "" ∧
     (scriptRun Transport.closedEarly).requests.length = 1) := by
  decide

/-- Claim C9: every byte of the wire body is ASCII (below 0x80) —
`json.dumps` with its default `ensure_ascii` emits the Chinese characters
as escape sequences. -/
theorem body_all_ascii :
    scriptRequest.body.all (fun b => b < 0x80) = true := by
  decide

/-- Claim C10: for every response body that is not valid UTF-8, the run
ends in the unhandled decoding fault and writes nothing to standard
output. -/
theorem invalid_utf8_fault (status : Nat) (body : List Nat)
    (h : utf8Decode body = none) :
    (scriptRun (Transport.ok status body)).outcome
      = Outcome.fault ScriptFault.unicodeDecodeError ∧
    (scriptRun (Transport.ok status body)).stdout = "" := by
  simp [scriptRun, latin1_payload, h]

/-- Claim C10, witness: the single byte 0xFF is not valid UTF-8; the run on
it faults with the decoding error and prints nothing. -/
theorem invalid_utf8_fault_witness :
    utf8Decode [0xFF] = none ∧
    ((scriptRun (Transport.ok 200 [0xFF])).outcome
        = Outcome.fault ScriptFault.unicodeDecodeError ∧
     (scriptRun (Transport.ok 200 [0xFF])).stdout = "") :=
  ⟨by decide, invalid_utf8_fault 200 [0xFF] (by decide)⟩

end GenerateCodeApiTest
